import Mathlib

/-!
Verification of the egg-collector/hatcher controller firmware
(`src/Joystick.c`) against its natural-language specification.

The engine core of `Joystick.c` is shallowly embedded below:
`reset_report` / `take_action` (report builder), `do_steps` (sequence
runner), and `GetNextReport` (echo buffer + top-level state machine).
Machine integers are modelled as `Nat` with explicit `% 256` where the
C code uses `uint8_t` arithmetic that can wrap; the C `int` counters
never approach their bounds on the paths the claims concern and are
modelled as `Nat` (with a cast to `Int` where the code compares a
counter against the possibly-negative `breeding_duration`).

The headers `Joystick.h`, `instructions.h`, `settings.h` and
`egg_cycles.h` are part of the repository but are not available under
`src/`; the constants, the action enumeration's carrier and the static
sequence/configuration data they provide are modelled from the spec as
opaque configuration values (see `Config`), never as concrete data.
-/

namespace SwSh

/-- Modelled from the spec: stick/HAT constants come from `Joystick.h`,
which is not under `src/`.  The spec only requires a fixed neutral value
for each axis and the pad; the concrete numbers (the conventional ones
for this controller) are immaterial to every claim. -/
def STICK_MIN : Nat := 0

/-- Modelled from the spec: neutral (centered) analog-axis value. -/
def STICK_CENTER : Nat := 128

/-- Modelled from the spec: maximal analog-axis deflection. -/
def STICK_MAX : Nat := 255

/-- Modelled from the spec: centered directional-pad value. -/
def HAT_CENTER : Nat := 8

/-- Modelled from the spec: the button bitmask constants from
`Joystick.h`.  Each named button is one distinct bit; the claims only
use that they are OR-ed into the bitmask. -/
def SWITCH_Y : Nat := 1

def SWITCH_B : Nat := 2

def SWITCH_A : Nat := 4

def SWITCH_X : Nat := 8

def SWITCH_L : Nat := 16

def SWITCH_R : Nat := 32

def SWITCH_PLUS : Nat := 512

def SWITCH_HOME : Nat := 4096

/-- The controller report (`USB_JoystickReport_Input_t`): button
bitmask, directional pad, and four 8-bit analog axes. -/
structure Report where
  Button : Nat
  HAT : Nat
  LX : Nat
  LY : Nat
  RX : Nat
  RY : Nat
deriving DecidableEq, Repr

/-- `reset_report` (Joystick.c:144-151): zero the struct, then center
both sticks and the pad.  The result does not depend on the prior
report contents. -/
def reset_report (_ReportData : Report) : Report :=
  { Button := 0
    HAT := HAT_CENTER
    LX := STICK_CENTER
    LY := STICK_CENTER
    RX := STICK_CENTER
    RY := STICK_CENTER }

/-- The symbolic actions dispatched by `take_action` (Joystick.c:153-239).
The enumeration `action_t` lives in `instructions.h` (not under `src/`);
the constructors below are exactly the cases named by `take_action`,
plus `unknown_action` standing for any other value of the C integer
enum, which falls to the `default:` branch. -/
inductive Action where
  | press_a
  | press_b
  | press_x
  | press_y
  | press_r
  | press_l
  | press_plus
  | press_home
  | hang
  | L_left
  | L_right
  | L_up
  | L_down
  | L_up_right
  | L_up_right_slight
  | L_left_slight
  | L_right_slight
  | L_up_slight
  | L_down_slight
  | unknown_action
deriving DecidableEq, Repr

open Action

/-- `take_action` (Joystick.c:153-239): mutate the report according to
the symbolic action. -/
def take_action (action : Action) (ReportData : Report) : Report :=
  match action with
  | press_a => { ReportData with Button := ReportData.Button ||| SWITCH_A }
  | press_b => { ReportData with Button := ReportData.Button ||| SWITCH_B }
  | press_x => { ReportData with Button := ReportData.Button ||| SWITCH_X }
  | press_y => { ReportData with Button := ReportData.Button ||| SWITCH_Y }
  | press_r => { ReportData with Button := ReportData.Button ||| SWITCH_R }
  | press_l => { ReportData with Button := ReportData.Button ||| SWITCH_L }
  | press_plus => { ReportData with Button := ReportData.Button ||| SWITCH_PLUS }
  | press_home => { ReportData with Button := ReportData.Button ||| SWITCH_HOME }
  | hang => reset_report ReportData
  | L_left => { ReportData with LX := STICK_MIN }
  | L_right => { ReportData with LX := STICK_MAX }
  | L_up => { ReportData with LY := STICK_MIN }
  | L_down => { ReportData with LY := STICK_MAX }
  | L_up_right => { ReportData with LY := STICK_MIN, LX := STICK_MAX }
  | L_up_right_slight => { ReportData with LY := 60, LX := 200 }
  | L_left_slight => { ReportData with LX := 100 }
  | L_right_slight => { ReportData with LX := 160 }
  | L_up_slight => { ReportData with LY := 100 }
  | L_down_slight => { ReportData with LY := 160 }
  | unknown_action => reset_report ReportData

/-- A step of a sequence: the C `command_t` from `instructions.h`
(an action and the number of ticks after which to advance). -/
structure Cmd where
  action : Action
  duration : Nat
deriving DecidableEq, Repr

/-- The top-level state enumeration `State_t` (Joystick.c:242-274). -/
inductive State_t where
  | SYNC_CONTROLLER
  | BREATHE
  | FLY_TO_NURSERY
  | IN_OUT_NURSERY
  | GO_TO_CIRCLE1
  | CIRCLE1
  | APPROACH_NPC
  | SPEAK
  | GO_TO_CIRCLE2
  | GO_TO_CIRCLE3
  | OPEN_BOX
  | SELECT_COL
  | GRAB_EGGS1_PRE
  | GRAB_EGGS2_PRE
  | GRAB_EGGS3_PRE
  | GRAB_EGGS4_PRE
  | GRAB_EGGS5_PRE
  | GRAB_EGGS6_PRE
  | SELECT_COL2
  | GRAB_EGGS1_POST
  | GRAB_EGGS2_POST
  | GRAB_EGGS3_POST
  | GRAB_EGGS4_POST
  | GRAB_EGGS5_POST
  | GRAB_EGGS6_POST
  | CLOSE_BOX
  | CIRCLE_CW
  | FLY_TO_NURSERY2
  | SAVE
  | SLEEP
  | DONE
deriving DecidableEq, Repr

open State_t

/-- The mutable globals of `Joystick.c` (lines 276-289) gathered into
one engine state.  `num_boxes`, `egg_count`, `egg_set`, `new_round` are
C `uint8_t` (values reduced mod 256 at each mutation); the counters and
`echoes` are C `int` that stay small and nonnegative; `breeding_duration`
is a C `int` that can in principle be negative, hence `Int`. -/
structure EngineState where
  state : State_t
  echoes : Nat
  last_report : Report
  duration_count : Nat
  bufindex : Nat
  num_boxes : Nat
  egg_count : Nat
  egg_set : Nat
  breeding_duration : Int
  new_round : Nat
deriving DecidableEq, Repr

/-- Modelled from the spec: the static configuration data provided by
`settings.h`, `egg_cycles.h` and `instructions.h`, none of which is
under `src/`.  The spec treats all of it as external configuration:
per-species cycle table and species index, the modifier flag, the
check counts, box count, save-policy selector, and the step table for
every named sequence. -/
structure Config where
  number_of_boxes : Nat
  initial_egg_checks : Nat
  subsequent_egg_checks : Nat
  save : Nat
  flame_body : Bool
  nat_dex_number : Nat
  egg_cycles : Nat → Nat
  wake_up_hang : List Cmd
  fly_to_breading_steps : List Cmd
  go_in_out_nursery : List Cmd
  go_to_circle1 : List Cmd
  approach : List Cmd
  speak : List Cmd
  go_to_circle2 : List Cmd
  go_to_circle3 : List Cmd
  open_box : List Cmd
  select_col : List Cmd
  grab_eggs1_pre : List Cmd
  grab_eggs2_pre : List Cmd
  grab_eggs3_pre : List Cmd
  grab_eggs4_pre : List Cmd
  grab_eggs5_pre : List Cmd
  grab_eggs6_pre : List Cmd
  grab_eggs1_post : List Cmd
  grab_eggs2_post : List Cmd
  grab_eggs3_post : List Cmd
  grab_eggs4_post : List Cmd
  grab_eggs5_post : List Cmd
  grab_eggs6_post : List Cmd
  close_box : List Cmd
  save_game : List Cmd
  sleep : List Cmd

/-- The counter side-effect of a completed counting sequence
(Joystick.c:305-312): `egg_count--` and `egg_set++` in `uint8_t`
arithmetic, then wrap `egg_set` back to 1 once it reaches 7. -/
def on_complete_counts (egg_count egg_set : Nat) : Nat × Nat :=
  let ec := (egg_count + 255) % 256
  let es := (egg_set + 1) % 256
  (ec, if 7 ≤ es then 1 else es)

/-- The neutral report `GetNextReport` starts every call from
(Joystick.c:325). -/
def neutralReport : Report := reset_report ⟨0, 0, 0, 0, 0, 0⟩

/-- The C array access `steps[bufindex]` of `do_steps`, modelled with a
default for out-of-bounds indices (the cursor discipline keeps the
access in bounds). -/
def stepAt (steps : List Cmd) (i : Nat) : Cmd :=
  steps.getD i ⟨hang, 0⟩

/-- `do_steps` (Joystick.c:291-318).  Applies the current step's action
to the report, advances the cursor `(bufindex, duration_count)`, and on
exhaustion of the list resets the cursor, optionally applies the egg
counter side-effect, installs the successor state and resets the
report.  The returned `Bool` records whether the completion branch
(`bufindex > steps_size - 1`) was taken; in C this is signalled by the
`state = nextState` assignment.  `steps[bufindex]` is modelled with
`List.getD` (the C access is in bounds whenever `bufindex` is a valid
index, which the cursor discipline maintains); the C comparison
`bufindex > steps_size - 1` over `int` is `steps.length ≤ bufindex`
(also for `steps_size = 0`, where the C left side is `-1`). -/
def do_steps (steps : List Cmd) (ReportData : Report) (nextState : State_t)
    (egg_counting : Bool) (s : EngineState) : Report × EngineState × Bool :=
  let cmd := stepAt steps s.bufindex
  let rd := take_action cmd.action ReportData
  let dc := s.duration_count + 1
  let bi := if cmd.duration < dc then s.bufindex + 1 else s.bufindex
  let dc' := if cmd.duration < dc then 0 else dc
  if steps.length ≤ bi then
    let counts := if egg_counting then on_complete_counts s.egg_count s.egg_set
      else (s.egg_count, s.egg_set)
    (reset_report rd,
      { s with bufindex := 0, duration_count := 0,
               egg_count := counts.1, egg_set := counts.2,
               state := nextState }, true)
  else
    (rd, { s with bufindex := bi, duration_count := dc' }, false)

/-- C truncation-toward-zero of a rational to an `int`. -/
def cTrunc (q : ℚ) : Int := if q < 0 then ⌈q⌉ else ⌊q⌋

/-- The `breeding_duration` computation of the `SYNC_CONTROLLER` case
(Joystick.c:342-347): `(1.046 * v) - 32.583` truncated to `int`, where
`v` is the per-species lookup value, halved first (by C integer
division) when `flame_body` is set.  The decimal literals are exact in
`ℚ`. -/
def breeding_duration_calc (flame_body : Bool) (v : Nat) : Int :=
  if flame_body then cTrunc ((1046 : ℚ) / 1000 * ((v / 2 : Nat) : ℚ) - 32583 / 1000)
  else cTrunc ((1046 : ℚ) / 1000 * (v : ℚ) - 32583 / 1000)

/-- The body of the `switch (state)` of `GetNextReport`
(Joystick.c:336-604), entered with the report already reset to neutral.
Returns the report as left by the executed case and the updated
globals.  The `DONE` case only performs the optional status pulse
(hardware I/O outside the engine state) and returns. -/
def runCase (cfg : Config) (s : EngineState) : Report × EngineState :=
  match s.state with
  | SYNC_CONTROLLER =>
      (neutralReport,
        { s with bufindex := 0, duration_count := 0, state := BREATHE,
                 breeding_duration :=
                   breeding_duration_calc cfg.flame_body
                     (cfg.egg_cycles cfg.nat_dex_number) })
  | BREATHE =>
      let r := do_steps cfg.wake_up_hang neutralReport FLY_TO_NURSERY false s
      (r.1, r.2.1)
  | FLY_TO_NURSERY =>
      if 1 < s.egg_set then
        let r := do_steps cfg.fly_to_breading_steps neutralReport GO_TO_CIRCLE3 false s
        (r.1, r.2.1)
      else if s.new_round ≠ 0 then
        let r := do_steps cfg.fly_to_breading_steps neutralReport GO_TO_CIRCLE1 false s
        (r.1, r.2.1)
      else
        let r := do_steps cfg.fly_to_breading_steps neutralReport IN_OUT_NURSERY false s
        (r.1, r.2.1)
  | IN_OUT_NURSERY =>
      let r := do_steps cfg.go_in_out_nursery neutralReport GO_TO_CIRCLE1 false s
      (r.1, r.2.1)
  | GO_TO_CIRCLE1 =>
      if s.new_round ≠ 0 ∧ 0 < s.egg_count then
        let r := do_steps cfg.go_to_circle1 neutralReport APPROACH_NPC false s
        (r.1, r.2.1)
      else if 0 < s.egg_count then
        let r := do_steps cfg.go_to_circle1 neutralReport CIRCLE1 false s
        (r.1, r.2.1)
      else
        (neutralReport, { s with egg_set := 1, state := GO_TO_CIRCLE3 })
  | CIRCLE1 =>
      let dc := s.duration_count + 1
      let rd :=
        if dc % 48 ≤ 11 then take_action L_left neutralReport
        else if dc % 48 ≤ 23 then take_action L_down neutralReport
        else if dc % 48 ≤ 35 then take_action L_right neutralReport
        else if dc % 48 ≤ 47 then take_action L_up neutralReport
        else neutralReport
      if 350 < dc then
        (rd, { s with duration_count := 0, bufindex := 0, state := APPROACH_NPC })
      else
        (rd, { s with duration_count := dc })
  | APPROACH_NPC =>
      let r := do_steps cfg.approach neutralReport SPEAK false { s with new_round := 0 }
      (r.1, r.2.1)
  | SPEAK =>
      let r := do_steps cfg.speak neutralReport GO_TO_CIRCLE2 true s
      (r.1, r.2.1)
  | GO_TO_CIRCLE2 =>
      if 1 ≤ s.egg_count then
        let r := do_steps cfg.go_to_circle2 neutralReport CIRCLE1 false s
        (r.1, r.2.1)
      else
        (neutralReport, { s with egg_set := 1, state := GO_TO_CIRCLE3 })
  | GO_TO_CIRCLE3 =>
      let r := do_steps cfg.go_to_circle3 neutralReport OPEN_BOX false s
      (r.1, r.2.1)
  | OPEN_BOX =>
      let r := do_steps cfg.open_box neutralReport SELECT_COL false s
      (r.1, r.2.1)
  | SELECT_COL =>
      if s.egg_set = 1 then
        let r := do_steps cfg.select_col neutralReport GRAB_EGGS1_PRE false s
        (r.1, r.2.1)
      else if s.egg_set = 2 then
        let r := do_steps cfg.select_col neutralReport GRAB_EGGS2_PRE false s
        (r.1, r.2.1)
      else if s.egg_set = 3 then
        let r := do_steps cfg.select_col neutralReport GRAB_EGGS3_PRE false s
        (r.1, r.2.1)
      else if s.egg_set = 4 then
        let r := do_steps cfg.select_col neutralReport GRAB_EGGS4_PRE false s
        (r.1, r.2.1)
      else if s.egg_set = 5 then
        let r := do_steps cfg.select_col neutralReport GRAB_EGGS5_PRE false s
        (r.1, r.2.1)
      else if s.egg_set = 6 then
        let r := do_steps cfg.select_col neutralReport GRAB_EGGS6_PRE false s
        (r.1, r.2.1)
      else
        (neutralReport, s)
  | GRAB_EGGS1_PRE =>
      let r := do_steps cfg.grab_eggs1_pre neutralReport SELECT_COL2 false s
      (r.1, r.2.1)
  | GRAB_EGGS2_PRE =>
      let r := do_steps cfg.grab_eggs2_pre neutralReport SELECT_COL2 false s
      (r.1, r.2.1)
  | GRAB_EGGS3_PRE =>
      let r := do_steps cfg.grab_eggs3_pre neutralReport SELECT_COL2 false s
      (r.1, r.2.1)
  | GRAB_EGGS4_PRE =>
      let r := do_steps cfg.grab_eggs4_pre neutralReport SELECT_COL2 false s
      (r.1, r.2.1)
  | GRAB_EGGS5_PRE =>
      let r := do_steps cfg.grab_eggs5_pre neutralReport SELECT_COL2 false s
      (r.1, r.2.1)
  | GRAB_EGGS6_PRE =>
      let r := do_steps cfg.grab_eggs6_pre neutralReport SELECT_COL2 false s
      (r.1, r.2.1)
  | SELECT_COL2 =>
      if s.egg_set = 1 then
        let r := do_steps cfg.select_col neutralReport GRAB_EGGS1_POST false s
        (r.1, r.2.1)
      else if s.egg_set = 2 then
        let r := do_steps cfg.select_col neutralReport GRAB_EGGS2_POST false s
        (r.1, r.2.1)
      else if s.egg_set = 3 then
        let r := do_steps cfg.select_col neutralReport GRAB_EGGS3_POST false s
        (r.1, r.2.1)
      else if s.egg_set = 4 then
        let r := do_steps cfg.select_col neutralReport GRAB_EGGS4_POST false s
        (r.1, r.2.1)
      else if s.egg_set = 5 then
        let r := do_steps cfg.select_col neutralReport GRAB_EGGS5_POST false s
        (r.1, r.2.1)
      else if s.egg_set = 6 then
        let r := do_steps cfg.select_col neutralReport GRAB_EGGS6_POST false s
        (r.1, r.2.1)
      else
        (neutralReport, s)
  | GRAB_EGGS1_POST =>
      let r := do_steps cfg.grab_eggs1_post neutralReport CLOSE_BOX false s
      (r.1, r.2.1)
  | GRAB_EGGS2_POST =>
      let r := do_steps cfg.grab_eggs2_post neutralReport CLOSE_BOX false s
      (r.1, r.2.1)
  | GRAB_EGGS3_POST =>
      let r := do_steps cfg.grab_eggs3_post neutralReport CLOSE_BOX false s
      (r.1, r.2.1)
  | GRAB_EGGS4_POST =>
      let r := do_steps cfg.grab_eggs4_post neutralReport CLOSE_BOX false s
      (r.1, r.2.1)
  | GRAB_EGGS5_POST =>
      let r := do_steps cfg.grab_eggs5_post neutralReport CLOSE_BOX false s
      (r.1, r.2.1)
  | GRAB_EGGS6_POST =>
      let r := do_steps cfg.grab_eggs6_post neutralReport CLOSE_BOX false s
      (r.1, r.2.1)
  | CLOSE_BOX =>
      let r := do_steps cfg.close_box neutralReport CIRCLE_CW true s
      (r.1, r.2.1)
  | CIRCLE_CW =>
      let dc := s.duration_count + 1
      let rd :=
        if dc % 48 ≤ 11 then take_action L_right neutralReport
        else if dc % 48 ≤ 23 then take_action L_down neutralReport
        else if dc % 48 ≤ 35 then take_action L_left neutralReport
        else if dc % 48 ≤ 47 then take_action L_up neutralReport
        else neutralReport
      let rd := if 0 ≤ dc % 24 ∧ dc % 24 ≤ 5 then take_action press_a rd else rd
      if s.breeding_duration + 4200 < (dc : Int) then
        if s.egg_set = 1 then
          let nb := (s.num_boxes + 255) % 256
          let s2 := { s with duration_count := 0, bufindex := 0,
                             egg_count := cfg.subsequent_egg_checks,
                             num_boxes := nb }
          if cfg.save = 1 ∨ (cfg.save = 2 ∧ nb ≤ 0) then
            (rd, { s2 with state := SAVE })
          else if 0 < nb then
            (rd, { s2 with new_round := 1, state := FLY_TO_NURSERY })
          else
            (rd, { s2 with state := SLEEP })
        else
          (rd, { s with duration_count := 0, bufindex := 0, state := FLY_TO_NURSERY })
      else
        (rd, { s with duration_count := dc })
  | FLY_TO_NURSERY2 =>
      (neutralReport, s)
  | SAVE =>
      if 0 < s.num_boxes then
        let r := do_steps cfg.save_game neutralReport FLY_TO_NURSERY false
          { s with new_round := 1 }
        (r.1, r.2.1)
      else
        let r := do_steps cfg.save_game neutralReport SLEEP false s
        (r.1, r.2.1)
  | SLEEP =>
      let r := do_steps cfg.sleep neutralReport DONE false s
      (r.1, r.2.1)
  | DONE =>
      (neutralReport, s)

/-- `ECHOES` (Joystick.c:278). -/
def ECHOES : Nat := 2

/-- `GetNextReport` (Joystick.c:322-615).  If an echo budget remains,
reissue the cached report and decrement the budget; otherwise run one
tick of the state machine and, unless the `DONE` case returned early,
cache the fresh report and reset the budget.  (The `FLY_TO_NURSERY2`
enum value is dead: no case and no transition targets it; the C switch
leaves the neutral report, matching `runCase`.) -/
def GetNextReport (cfg : Config) (s : EngineState) : Report × EngineState :=
  if 0 < s.echoes then
    (s.last_report, { s with echoes := s.echoes - 1 })
  else
    let r := runCase cfg s
    if s.state = DONE then (r.1, r.2)
    else (r.1, { r.2 with last_report := r.1, echoes := ECHOES })

/-- The startup values of the globals (Joystick.c:276-289). -/
def initialState (cfg : Config) : EngineState :=
  { state := SYNC_CONTROLLER
    echoes := 0
    last_report := neutralReport
    duration_count := 0
    bufindex := 0
    num_boxes := cfg.number_of_boxes % 256
    egg_count := cfg.initial_egg_checks % 256
    egg_set := 1
    breeding_duration := 5500
    new_round := 0 }

/-- Classification of the actions of `take_action`: the button actions
together with the bit each one ORs into the bitmask; `none` for the
stick actions and the resetting actions. -/
def buttonBit : Action → Option Nat
  | press_a => some SWITCH_A
  | press_b => some SWITCH_B
  | press_x => some SWITCH_X
  | press_y => some SWITCH_Y
  | press_r => some SWITCH_R
  | press_l => some SWITCH_L
  | press_plus => some SWITCH_PLUS
  | press_home => some SWITCH_HOME
  | _ => none

/-- Number of Sequence-Runner calls a sequence takes from cursor (0,0)
to completion: `sum(duration + 1)` over its steps. -/
def ticksFor (steps : List Cmd) : Nat :=
  (steps.map fun c => c.duration + 1).sum

/-- The engine state left by one `do_steps` call (reports discarded),
with the report argument the neutral report `GetNextReport` passes. -/
def runnerTick (steps : List Cmd) (nextState : State_t) (egg_counting : Bool)
    (s : EngineState) : EngineState :=
  (do_steps steps neutralReport nextState egg_counting s).2.1

/-- The completion flag of one `do_steps` call. -/
def runnerDone (steps : List Cmd) (nextState : State_t) (egg_counting : Bool)
    (s : EngineState) : Bool :=
  (do_steps steps neutralReport nextState egg_counting s).2.2

/-- A concrete configuration, used only to instantiate universally
quantified theorems at explicit inputs. -/
def trivCfg : Config :=
  { number_of_boxes := 1
    initial_egg_checks := 1
    subsequent_egg_checks := 1
    save := 0
    flame_body := false
    nat_dex_number := 0
    egg_cycles := fun _ => 6400
    wake_up_hang := [⟨hang, 0⟩]
    fly_to_breading_steps := [⟨hang, 0⟩]
    go_in_out_nursery := [⟨hang, 0⟩]
    go_to_circle1 := [⟨hang, 0⟩]
    approach := [⟨hang, 0⟩]
    speak := [⟨hang, 0⟩]
    go_to_circle2 := [⟨hang, 0⟩]
    go_to_circle3 := [⟨hang, 0⟩]
    open_box := [⟨hang, 0⟩]
    select_col := [⟨hang, 0⟩]
    grab_eggs1_pre := [⟨hang, 0⟩]
    grab_eggs2_pre := [⟨hang, 0⟩]
    grab_eggs3_pre := [⟨hang, 0⟩]
    grab_eggs4_pre := [⟨hang, 0⟩]
    grab_eggs5_pre := [⟨hang, 0⟩]
    grab_eggs6_pre := [⟨hang, 0⟩]
    grab_eggs1_post := [⟨hang, 0⟩]
    grab_eggs2_post := [⟨hang, 0⟩]
    grab_eggs3_post := [⟨hang, 0⟩]
    grab_eggs4_post := [⟨hang, 0⟩]
    grab_eggs5_post := [⟨hang, 0⟩]
    grab_eggs6_post := [⟨hang, 0⟩]
    close_box := [⟨hang, 0⟩]
    save_game := [⟨hang, 0⟩]
    sleep := [⟨hang, 0⟩] }

/-- A concrete engine state sitting at the `SELECT_COL` dispatch with
the out-of-range slot value `egg_set = 0`. -/
def selColBadSlot : EngineState :=
  { state := SELECT_COL
    echoes := 0
    last_report := neutralReport
    duration_count := 0
    bufindex := 0
    num_boxes := 1
    egg_count := 1
    egg_set := 0
    breeding_duration := 5500
    new_round := 0 }

/-- A concrete fresh entry into the `CIRCLE1` sub-routine
(elapsed counter 0, no pending echoes). -/
def circle1Entry : EngineState :=
  { state := CIRCLE1
    echoes := 0
    last_report := neutralReport
    duration_count := 0
    bufindex := 0
    num_boxes := 1
    egg_count := 1
    egg_set := 1
    breeding_duration := 5500
    new_round := 0 }

/-- The egg counters after `k` consecutive counting completions of the
Sequence Runner: `k`-fold iteration of the completion side-effect of
`do_steps`. -/
def onCompleteIter (k : Nat) (p : Nat × Nat) : Nat × Nat :=
  (fun q : Nat × Nat => on_complete_counts q.1 q.2)^[k] p

theorem onCompleteIter_succ (k : Nat) (p : Nat × Nat) :
    onCompleteIter (k + 1) p =
      on_complete_counts (onCompleteIter k p).1 (onCompleteIter k p).2 := by
  simp [onCompleteIter, Function.iterate_succ_apply']

/-- C6: a counting completion of `do_steps` applies the completion
side-effect `on_complete_counts`; starting from `egg_set = 1`, six
consecutive such completions keep `egg_set` in 1..6 throughout, first
return it to 1 at the sixth (cycle length exactly 6, wrapping 6 to 1),
and leave `egg_count` decremented by exactly 6 in `uint8_t`
arithmetic. -/
theorem claim_C6_egg_slot_cycle (ec : Nat) :
    (∀ (steps : List Cmd) (rd : Report) (next : State_t) (s : EngineState),
      (do_steps steps rd next true s).2.2 = true →
      (do_steps steps rd next true s).2.1.egg_count =
          (on_complete_counts s.egg_count s.egg_set).1 ∧
        (do_steps steps rd next true s).2.1.egg_set =
          (on_complete_counts s.egg_count s.egg_set).2) ∧
    (∀ k, k ≤ 6 → 1 ≤ (onCompleteIter k (ec, 1)).2 ∧ (onCompleteIter k (ec, 1)).2 ≤ 6) ∧
    (∀ k, 1 ≤ k → k ≤ 5 → (onCompleteIter k (ec, 1)).2 ≠ 1) ∧
    (onCompleteIter 6 (ec, 1)).2 = 1 ∧
    (onCompleteIter 6 (ec, 1)).1 = (ec + 250) % 256 := by
  have e0 : onCompleteIter 0 (ec, 1) = (ec, 1) := rfl
  have e1 : onCompleteIter 1 (ec, 1) = ((ec + 255) % 256, 2) := by
    rw [onCompleteIter_succ, e0]
    simp [on_complete_counts]
  have e2 : onCompleteIter 2 (ec, 1) = ((ec + 510) % 256, 3) := by
    rw [onCompleteIter_succ, e1]
    simp only [on_complete_counts, Prod.mk.injEq]
    refine ⟨by omega, by norm_num⟩
  have e3 : onCompleteIter 3 (ec, 1) = ((ec + 765) % 256, 4) := by
    rw [onCompleteIter_succ, e2]
    simp only [on_complete_counts, Prod.mk.injEq]
    refine ⟨by omega, by norm_num⟩
  have e4 : onCompleteIter 4 (ec, 1) = ((ec + 1020) % 256, 5) := by
    rw [onCompleteIter_succ, e3]
    simp only [on_complete_counts, Prod.mk.injEq]
    refine ⟨by omega, by norm_num⟩
  have e5 : onCompleteIter 5 (ec, 1) = ((ec + 1275) % 256, 6) := by
    rw [onCompleteIter_succ, e4]
    simp only [on_complete_counts, Prod.mk.injEq]
    refine ⟨by omega, by norm_num⟩
  have e6 : onCompleteIter 6 (ec, 1) = ((ec + 250) % 256, 1) := by
    rw [onCompleteIter_succ, e5]
    simp only [on_complete_counts, Prod.mk.injEq]
    refine ⟨by omega, by norm_num⟩
  refine ⟨?_, ?_, ?_, by rw [e6], by rw [e6]⟩
  · intro steps rd next s h
    simp only [do_steps] at h ⊢
    split_ifs at h ⊢ <;> simp_all
  · intro k hk
    interval_cases k <;>
      simp only [e0, e1, e2, e3, e4, e5, e6] <;> norm_num
  · intro k hk1 hk5
    interval_cases k <;>
      simp only [e1, e2, e3, e4, e5] <;> norm_num

/-- Witness for C6 at the concrete starting count `egg_count = 3`. -/
theorem claim_C6_witness :
    (∀ (steps : List Cmd) (rd : Report) (next : State_t) (s : EngineState),
      (do_steps steps rd next true s).2.2 = true →
      (do_steps steps rd next true s).2.1.egg_count =
          (on_complete_counts s.egg_count s.egg_set).1 ∧
        (do_steps steps rd next true s).2.1.egg_set =
          (on_complete_counts s.egg_count s.egg_set).2) ∧
    (∀ k, k ≤ 6 → 1 ≤ (onCompleteIter k (3, 1)).2 ∧ (onCompleteIter k (3, 1)).2 ≤ 6) ∧
    (∀ k, 1 ≤ k → k ≤ 5 → (onCompleteIter k (3, 1)).2 ≠ 1) ∧
    (onCompleteIter 6 (3, 1)).2 = 1 ∧
    (onCompleteIter 6 (3, 1)).1 = (3 + 250) % 256 :=
  claim_C6_egg_slot_cycle 3

/-- C7: on the sync tick, with the modifier flag unset and lookup value
6400, the breeding duration is `1.046*6400 - 32.583 = 6661.817`, stored
as 6661 by `int` truncation; with the flag set the lookup value is
halved (by integer division) before the same formula is applied. -/
theorem claim_C7_breeding_duration :
    breeding_duration_calc false 6400 = 6661 ∧
    ((1046 : ℚ) / 1000 * 6400 - 32583 / 1000 = 6661817 / 1000) ∧
    (∀ v : Nat, breeding_duration_calc true v = breeding_duration_calc false (v / 2)) := by
  refine ⟨?_, by norm_num, fun v => rfl⟩
  have h : ((1046 : ℚ) / 1000 * ((6400 : Nat) : ℚ) - 32583 / 1000) = 6661817 / 1000 := by
    norm_num
  simp only [breeding_duration_calc, if_false, Bool.false_eq_true, cTrunc, h]
  rw [if_neg (by norm_num)]
  rw [Int.floor_eq_iff]
  norm_num

/-- C4: when an echo budget remains, `GetNextReport` returns the cached
`last_report` byte-identically, decrements `echoes`, and changes nothing
else (the state machine is not advanced); consequently the two calls
following any fresh (non-cached) call return reports bit-identical to
the fresh one, and only the third may differ. -/
theorem claim_C4_echo_invariant (cfg : Config) (s : EngineState) :
    (0 < s.echoes →
      GetNextReport cfg s = (s.last_report, { s with echoes := s.echoes - 1 })) ∧
    (s.echoes = 0 →
      (GetNextReport cfg (GetNextReport cfg s).2).1 = (GetNextReport cfg s).1 ∧
      (GetNextReport cfg (GetNextReport cfg (GetNextReport cfg s).2).2).1 =
        (GetNextReport cfg s).1) := by
  constructor
  · intro h
    simp [GetNextReport, h]
  · intro h
    by_cases hd : s.state = DONE
    · simp [GetNextReport, h, hd, runCase]
    · simp [GetNextReport, h, hd, ECHOES]

/-- Witness for C4: the echo branch at a cached state with one echo
left, and the three-call identity from a concrete fresh state. -/
theorem claim_C4_witness :
    (GetNextReport trivCfg { circle1Entry with echoes := 1 } =
      ({ circle1Entry with echoes := 1 }.last_report,
        { { circle1Entry with echoes := 1 } with
            echoes := { circle1Entry with echoes := 1 }.echoes - 1 })) ∧
    ((GetNextReport trivCfg (GetNextReport trivCfg circle1Entry).2).1 =
        (GetNextReport trivCfg circle1Entry).1 ∧
      (GetNextReport trivCfg
            (GetNextReport trivCfg (GetNextReport trivCfg circle1Entry).2).2).1 =
        (GetNextReport trivCfg circle1Entry).1) :=
  ⟨(claim_C4_echo_invariant trivCfg { circle1Entry with echoes := 1 }).1 (by decide),
    (claim_C4_echo_invariant trivCfg circle1Entry).2 rfl⟩

/-- C2: a fresh `CIRCLE_CW` tick leaves the sub-routine iff the
incremented elapsed counter does not exceed `breeding_duration + 4200`;
on the terminating tick with `egg_set = 1` it sets `egg_count` to the
configured subsequent-checks value, decrements `num_boxes` (in
`uint8_t`), and picks `SAVE` when `save = 1` or (`save = 2` and the
already-decremented `num_boxes` is 0), else `FLY_TO_NURSERY` with
`new_round = 1` when boxes remain, else `SLEEP`; with `egg_set ≠ 1` it
goes to `FLY_TO_NURSERY` with no counter changes. -/
theorem claim_C2_circle_cw (cfg : Config) (s : EngineState)
    (he : s.echoes = 0) (hs : s.state = CIRCLE_CW) :
    (((s.duration_count + 1 : Int) ≤ s.breeding_duration + 4200 →
        (GetNextReport cfg s).2.state = CIRCLE_CW ∧
        (GetNextReport cfg s).2.duration_count = s.duration_count + 1 ∧
        (GetNextReport cfg s).2.egg_count = s.egg_count ∧
        (GetNextReport cfg s).2.egg_set = s.egg_set ∧
        (GetNextReport cfg s).2.num_boxes = s.num_boxes ∧
        (GetNextReport cfg s).2.new_round = s.new_round)) ∧
    (s.breeding_duration + 4200 < (s.duration_count + 1 : Int) →
      (s.egg_set = 1 →
        (GetNextReport cfg s).2.egg_count = cfg.subsequent_egg_checks ∧
        (GetNextReport cfg s).2.num_boxes = (s.num_boxes + 255) % 256 ∧
        (GetNextReport cfg s).2.state =
          (if cfg.save = 1 ∨ (cfg.save = 2 ∧ (s.num_boxes + 255) % 256 = 0)
            then SAVE
            else if 0 < (s.num_boxes + 255) % 256 then FLY_TO_NURSERY
            else SLEEP) ∧
        ((GetNextReport cfg s).2.state = FLY_TO_NURSERY →
          (GetNextReport cfg s).2.new_round = 1)) ∧
      (s.egg_set ≠ 1 →
        (GetNextReport cfg s).2.state = FLY_TO_NURSERY ∧
        (GetNextReport cfg s).2.egg_count = s.egg_count ∧
        (GetNextReport cfg s).2.egg_set = s.egg_set ∧
        (GetNextReport cfg s).2.num_boxes = s.num_boxes ∧
        (GetNextReport cfg s).2.new_round = s.new_round)) := by
  constructor
  · intro hle
    have hnot : ¬ s.breeding_duration + 4200 < (s.duration_count + 1 : Int) := by omega
    simp [GetNextReport, he, hs, runCase, hnot]
  · intro hgt
    constructor
    · intro h1
      have hsave : cfg.save = 1 ∨ (cfg.save = 2 ∧ (s.num_boxes + 255) % 256 ≤ 0)
          ↔ cfg.save = 1 ∨ (cfg.save = 2 ∧ (s.num_boxes + 255) % 256 = 0) := by omega
      by_cases hc : cfg.save = 1 ∨ (cfg.save = 2 ∧ (s.num_boxes + 255) % 256 = 0)
      · simp [GetNextReport, he, hs, runCase, hgt, h1, hsave, hc]
      · by_cases hb : 0 < (s.num_boxes + 255) % 256
        · simp [GetNextReport, he, hs, runCase, hgt, h1, hsave, hc, hb]
        · simp [GetNextReport, he, hs, runCase, hgt, h1, hsave, hc, hb]
    · intro h1
      simp [GetNextReport, he, hs, runCase, hgt, h1]

/-- Witness for C2 at a concrete terminating tick with `egg_set = 1`
(`breeding_duration = 5500`, counter 9700, one box left, save policy
0). -/
theorem claim_C2_witness :
    ((((9700 : Nat) + 1 : Int) ≤ (5500 : Int) + 4200 →
        (GetNextReport trivCfg { circle1Entry with state := CIRCLE_CW, duration_count := 9700 }).2.state = CIRCLE_CW ∧
        (GetNextReport trivCfg { circle1Entry with state := CIRCLE_CW, duration_count := 9700 }).2.duration_count = 9700 + 1 ∧
        (GetNextReport trivCfg { circle1Entry with state := CIRCLE_CW, duration_count := 9700 }).2.egg_count = 1 ∧
        (GetNextReport trivCfg { circle1Entry with state := CIRCLE_CW, duration_count := 9700 }).2.egg_set = 1 ∧
        (GetNextReport trivCfg { circle1Entry with state := CIRCLE_CW, duration_count := 9700 }).2.num_boxes = 1 ∧
        (GetNextReport trivCfg { circle1Entry with state := CIRCLE_CW, duration_count := 9700 }).2.new_round = 0) ∧
      ((5500 : Int) + 4200 < ((9700 : Nat) + 1 : Int) →
        ((1 : Nat) = 1 →
          (GetNextReport trivCfg { circle1Entry with state := CIRCLE_CW, duration_count := 9700 }).2.egg_count = trivCfg.subsequent_egg_checks ∧
          (GetNextReport trivCfg { circle1Entry with state := CIRCLE_CW, duration_count := 9700 }).2.num_boxes = ((1 : Nat) + 255) % 256 ∧
          (GetNextReport trivCfg { circle1Entry with state := CIRCLE_CW, duration_count := 9700 }).2.state =
            (if trivCfg.save = 1 ∨ (trivCfg.save = 2 ∧ ((1 : Nat) + 255) % 256 = 0)
              then SAVE
              else if 0 < ((1 : Nat) + 255) % 256 then FLY_TO_NURSERY
              else SLEEP) ∧
          ((GetNextReport trivCfg { circle1Entry with state := CIRCLE_CW, duration_count := 9700 }).2.state = FLY_TO_NURSERY →
            (GetNextReport trivCfg { circle1Entry with state := CIRCLE_CW, duration_count := 9700 }).2.new_round = 1)) ∧
        ((1 : Nat) ≠ 1 →
          (GetNextReport trivCfg { circle1Entry with state := CIRCLE_CW, duration_count := 9700 }).2.state = FLY_TO_NURSERY ∧
          (GetNextReport trivCfg { circle1Entry with state := CIRCLE_CW, duration_count := 9700 }).2.egg_count = 1 ∧
          (GetNextReport trivCfg { circle1Entry with state := CIRCLE_CW, duration_count := 9700 }).2.egg_set = 1 ∧
          (GetNextReport trivCfg { circle1Entry with state := CIRCLE_CW, duration_count := 9700 }).2.num_boxes = 1 ∧
          (GetNextReport trivCfg { circle1Entry with state := CIRCLE_CW, duration_count := 9700 }).2.new_round = 0))) :=
  claim_C2_circle_cw trivCfg
    { circle1Entry with state := CIRCLE_CW, duration_count := 9700 } rfl rfl

/-- C3 counterexample: at the concrete state `selColBadSlot`
(`SELECT_COL`, `egg_set = 0`), the dispatch has no default branch: the
tick does not reset-and-resync (the machine stays in `SELECT_COL`, not
`SYNC_CONTROLLER`) and three output calls return the engine to exactly
the same state, so the engine stops making progress (it livelocks
emitting the neutral report forever), refuting the claim. -/
theorem claim_C3_counterexample :
    (GetNextReport trivCfg selColBadSlot).2.state = SELECT_COL ∧
    (GetNextReport trivCfg selColBadSlot).2.state ≠ SYNC_CONTROLLER ∧
    ((fun t => (GetNextReport trivCfg t).2)^[3] selColBadSlot = selColBadSlot) ∧
    (GetNextReport trivCfg selColBadSlot).1 = neutralReport := by
  decide

/-- C3 (amended): an egg-slot value outside 1..6 reaching a
select-column dispatch makes the engine emit the neutral report and
leave every state-machine field unchanged (only the echo cache is
refreshed): there is no default reset-and-resync branch, and the engine
stops making progress, re-emitting the neutral report forever. -/
theorem claim_C3_select_col_no_default (cfg : Config) (s : EngineState)
    (he : s.echoes = 0)
    (hsel : s.state = SELECT_COL ∨ s.state = SELECT_COL2)
    (hbad : ¬(1 ≤ s.egg_set ∧ s.egg_set ≤ 6)) :
    GetNextReport cfg s =
      (neutralReport, { s with last_report := neutralReport, echoes := ECHOES }) := by
  have h1 : ¬ s.egg_set = 1 := by omega
  have h2 : ¬ s.egg_set = 2 := by omega
  have h3 : ¬ s.egg_set = 3 := by omega
  have h4 : ¬ s.egg_set = 4 := by omega
  have h5 : ¬ s.egg_set = 5 := by omega
  have h6 : ¬ s.egg_set = 6 := by omega
  rcases hsel with h | h <;>
    simp [GetNextReport, he, h, runCase, h1, h2, h3, h4, h5, h6]

/-- Witness for the amended C3 at the concrete state `selColBadSlot`. -/
theorem claim_C3_witness :
    GetNextReport trivCfg selColBadSlot =
      (neutralReport,
        { selColBadSlot with last_report := neutralReport, echoes := ECHOES }) :=
  claim_C3_select_col_no_default trivCfg selColBadSlot rfl (Or.inl rfl) (by decide)

set_option maxRecDepth 8000 in
/-- C5 counterexample: from the fresh entry `circle1Entry`, after 33
output calls (= 11 machine ticks through the echo buffer) the elapsed
counter is 11, and the 34th call — the 12th tick — emits the `down`
report (`LY = STICK_MAX`, `LX` centered), not the `left` report: the
stick does not hold left for 12 consecutive ticks. -/
theorem claim_C5_counterexample :
    ((fun t => (GetNextReport trivCfg t).2)^[33] circle1Entry).duration_count = 11 ∧
    ((fun t => (GetNextReport trivCfg t).2)^[33] circle1Entry).state = CIRCLE1 ∧
    (GetNextReport trivCfg
        ((fun t => (GetNextReport trivCfg t).2)^[33] circle1Entry)).1.LY = STICK_MAX ∧
    (GetNextReport trivCfg
        ((fun t => (GetNextReport trivCfg t).2)^[33] circle1Entry)).1.LX = STICK_CENTER ∧
    take_action L_left neutralReport ≠ take_action L_down neutralReport := by
  decide

/-- C5 (amended): a fresh `CIRCLE1` tick with elapsed counter `c` emits
left when `(c+1) % 48 ≤ 11`, down up to 23, right up to 35, up up to
47; hence over the first 48 ticks from a fresh entry the pattern is
left for ticks 1-11, down for 12-23, right for 24-35, up for 36-47 and
left again at tick 48 (11 lefts, not 12, before the first down); the
sub-routine transitions to `APPROACH_NPC` exactly when the incremented
counter exceeds 350 (tick 351 from a fresh entry), regardless of the
egg/box counters. -/
theorem claim_C5_circle1 (cfg : Config) (s : EngineState)
    (he : s.echoes = 0) (hs : s.state = CIRCLE1) :
    ((GetNextReport cfg s).1 =
      (if (s.duration_count + 1) % 48 ≤ 11 then take_action L_left neutralReport
        else if (s.duration_count + 1) % 48 ≤ 23 then take_action L_down neutralReport
        else if (s.duration_count + 1) % 48 ≤ 35 then take_action L_right neutralReport
        else take_action L_up neutralReport)) ∧
    ((GetNextReport cfg s).2.state =
      (if 350 < s.duration_count + 1 then APPROACH_NPC else CIRCLE1)) ∧
    ((GetNextReport cfg s).2.duration_count =
      (if 350 < s.duration_count + 1 then 0 else s.duration_count + 1)) ∧
    (∀ k, 1 ≤ k → k ≤ 48 → s.duration_count = k - 1 →
      (GetNextReport cfg s).1 =
        (if k ≤ 11 ∨ k = 48 then take_action L_left neutralReport
          else if k ≤ 23 then take_action L_down neutralReport
          else if k ≤ 35 then take_action L_right neutralReport
          else take_action L_up neutralReport)) := by
  have h47 : (s.duration_count + 1) % 48 ≤ 47 := by omega
  have h48 : (s.duration_count + 1) % 48 < 48 := by omega
  have hrep : (GetNextReport cfg s).1 =
      (if (s.duration_count + 1) % 48 ≤ 11 then take_action L_left neutralReport
        else if (s.duration_count + 1) % 48 ≤ 23 then take_action L_down neutralReport
        else if (s.duration_count + 1) % 48 ≤ 35 then take_action L_right neutralReport
        else take_action L_up neutralReport) := by
    by_cases h350 : 350 < s.duration_count + 1 <;>
      simp [GetNextReport, he, hs, runCase, h350] <;> split_ifs <;> rfl
  refine ⟨hrep, ?_, ?_, ?_⟩
  · by_cases h350 : 350 < s.duration_count + 1 <;>
      simp [GetNextReport, he, hs, runCase, h350]
  · by_cases h350 : 350 < s.duration_count + 1 <;>
      simp [GetNextReport, he, hs, runCase, h350]
  · intro k hk1 hk48 hdc
    have hdck : s.duration_count + 1 = k := by omega
    rw [hrep, hdck]
    by_cases hk47 : k ≤ 47
    · rw [Nat.mod_eq_of_lt (by omega)]
      split_ifs <;> first | rfl | omega
    · have hk : k = 48 := by omega
      subst hk
      norm_num

/-- Witness for the amended C5 at the fresh entry `circle1Entry`
(tick 1: counter 0, left report, stays in `CIRCLE1`). -/
theorem claim_C5_witness :
    ((GetNextReport trivCfg circle1Entry).1 =
      (if (circle1Entry.duration_count + 1) % 48 ≤ 11 then take_action L_left neutralReport
        else if (circle1Entry.duration_count + 1) % 48 ≤ 23 then take_action L_down neutralReport
        else if (circle1Entry.duration_count + 1) % 48 ≤ 35 then take_action L_right neutralReport
        else take_action L_up neutralReport)) ∧
    ((GetNextReport trivCfg circle1Entry).2.state =
      (if 350 < circle1Entry.duration_count + 1 then APPROACH_NPC else CIRCLE1)) ∧
    ((GetNextReport trivCfg circle1Entry).2.duration_count =
      (if 350 < circle1Entry.duration_count + 1 then 0
        else circle1Entry.duration_count + 1)) ∧
    (∀ k, 1 ≤ k → k ≤ 48 → circle1Entry.duration_count = k - 1 →
      (GetNextReport trivCfg circle1Entry).1 =
        (if k ≤ 11 ∨ k = 48 then take_action L_left neutralReport
          else if k ≤ 23 then take_action L_down neutralReport
          else if k ≤ 35 then take_action L_right neutralReport
          else take_action L_up neutralReport)) :=
  claim_C5_circle1 trivCfg circle1Entry rfl rfl

/-- C8: the `hang` action (and any unrecognized action, via the
`default:` branch of `take_action`) maps every report to the one fixed
neutral report: centered sticks and pad, zero buttons; hence it is
constant and idempotent. -/
theorem claim_C8_hang_resets (r : Report) :
    take_action hang r = neutralReport ∧
    take_action unknown_action r = neutralReport ∧
    take_action hang (take_action hang r) = take_action hang r ∧
    neutralReport.Button = 0 ∧ neutralReport.LX = STICK_CENTER ∧
    neutralReport.LY = STICK_CENTER ∧ neutralReport.RX = STICK_CENTER ∧
    neutralReport.RY = STICK_CENTER ∧ neutralReport.HAT = HAT_CENTER :=
  ⟨rfl, rfl, rfl, rfl, rfl, rfl, rfl, rfl, rfl⟩

/-- C9: every action other than `hang`/default touches only the fields
it explicitly sets: no such action writes `RX`, `RY` or `HAT`; a button
action only ORs its bit into the bitmask, leaving the sticks alone; a
stick action leaves the bitmask alone. -/
theorem claim_C9_take_action_frame (a : Action) (r : Report)
    (h1 : a ≠ hang) (h2 : a ≠ unknown_action) :
    ((take_action a r).RX = r.RX ∧ (take_action a r).RY = r.RY ∧
      (take_action a r).HAT = r.HAT) ∧
    (∀ b, buttonBit a = some b →
      (take_action a r).LX = r.LX ∧ (take_action a r).LY = r.LY ∧
      (take_action a r).Button = r.Button ||| b) ∧
    (buttonBit a = none → (take_action a r).Button = r.Button) := by
  cases a <;> simp_all [take_action, buttonBit]

/-- Witness for C9 at the concrete input `press_a`, `neutralReport`. -/
theorem claim_C9_witness :
    ((take_action press_a neutralReport).RX = neutralReport.RX ∧
      (take_action press_a neutralReport).RY = neutralReport.RY ∧
      (take_action press_a neutralReport).HAT = neutralReport.HAT) ∧
    (∀ b, buttonBit press_a = some b →
      (take_action press_a neutralReport).LX = neutralReport.LX ∧
      (take_action press_a neutralReport).LY = neutralReport.LY ∧
      (take_action press_a neutralReport).Button = neutralReport.Button ||| b) ∧
    (buttonBit press_a = none →
      (take_action press_a neutralReport).Button = neutralReport.Button) :=
  claim_C9_take_action_frame press_a neutralReport (by decide) (by decide)

theorem ticksFor_drop_succ (steps : List Cmd) (i : Nat) (h : i < steps.length) :
    ticksFor (steps.drop i) =
      (stepAt steps i).duration + 1 + ticksFor (steps.drop (i + 1)) := by
  rw [List.drop_eq_getElem_cons h]
  rw [show stepAt steps i = steps[i] from List.getD_eq_getElem steps ⟨hang, 0⟩ h]
  simp only [ticksFor, List.map_cons, List.sum_cons]

theorem runnerTick_step (steps : List Cmd) (next : State_t) (cnt : Bool)
    (s : EngineState) (hlen : s.bufindex < steps.length) :
    (s.duration_count < (stepAt steps s.bufindex).duration →
      runnerDone steps next cnt s = false ∧
      (runnerTick steps next cnt s).bufindex = s.bufindex ∧
      (runnerTick steps next cnt s).duration_count = s.duration_count + 1) ∧
    ((stepAt steps s.bufindex).duration ≤ s.duration_count →
      s.bufindex + 1 < steps.length →
      runnerDone steps next cnt s = false ∧
      (runnerTick steps next cnt s).bufindex = s.bufindex + 1 ∧
      (runnerTick steps next cnt s).duration_count = 0) ∧
    ((stepAt steps s.bufindex).duration ≤ s.duration_count →
      steps.length ≤ s.bufindex + 1 →
      runnerDone steps next cnt s = true ∧
      (runnerTick steps next cnt s).bufindex = 0 ∧
      (runnerTick steps next cnt s).duration_count = 0) := by
  simp only [runnerTick, runnerDone, do_steps]
  refine ⟨fun h1 => ?_, fun h1 h2 => ?_, fun h1 h2 => ?_⟩ <;>
    split_ifs <;> first
      | exact ⟨rfl, rfl, rfl⟩
      | (exfalso; omega)

theorem runner_run (steps : List Cmd) (next : State_t) (cnt : Bool) :
    ∀ (R : Nat) (s : EngineState), s.bufindex < steps.length →
      s.duration_count ≤ (stepAt steps s.bufindex).duration →
      ticksFor (steps.drop s.bufindex) - s.duration_count = R →
      (∀ n, n < R →
        (runnerDone steps next cnt ((runnerTick steps next cnt)^[n] s) = true ↔
          n = R - 1)) ∧
      ((runnerTick steps next cnt)^[R] s).bufindex = 0 ∧
      ((runnerTick steps next cnt)^[R] s).duration_count = 0 := by
  intro R
  induction R with
  | zero =>
    intro s hlen hdur hR
    have hdrop := ticksFor_drop_succ steps s.bufindex hlen
    exact absurd hR (by omega)
  | succ R ih =>
    intro s hlen hdur hR
    have hdrop := ticksFor_drop_succ steps s.bufindex hlen
    obtain ⟨st1, st2, st3⟩ := runnerTick_step steps next cnt s hlen
    by_cases hlt : s.duration_count < (stepAt steps s.bufindex).duration
    · obtain ⟨hdone, hbi, hdc⟩ := st1 hlt
      have h1len : (runnerTick steps next cnt s).bufindex < steps.length := by
        rw [hbi]; exact hlen
      have h1dur : (runnerTick steps next cnt s).duration_count ≤
          (stepAt steps (runnerTick steps next cnt s).bufindex).duration := by
        rw [hbi, hdc]; omega
      have h1R : ticksFor (steps.drop (runnerTick steps next cnt s).bufindex) -
          (runnerTick steps next cnt s).duration_count = R := by
        rw [hbi, hdc]; omega
      have hRpos : 1 ≤ R := by omega
      obtain ⟨hcompl, hbz, hdz⟩ := ih (runnerTick steps next cnt s) h1len h1dur h1R
      refine ⟨?_, ?_, ?_⟩
      · intro n hn
        cases n with
        | zero =>
          rw [Function.iterate_zero_apply, hdone]
          constructor
          · intro hh; exact absurd hh (by simp)
          · intro hh; exact absurd hh (by omega)
        | succ m =>
          rw [Function.iterate_succ_apply, hcompl m (by omega)]
          omega
      · rw [Function.iterate_succ_apply]; exact hbz
      · rw [Function.iterate_succ_apply]; exact hdz
    · have hge : (stepAt steps s.bufindex).duration ≤ s.duration_count := by
        omega
      by_cases hbl : s.bufindex + 1 < steps.length
      · obtain ⟨hdone, hbi, hdc⟩ := st2 hge hbl
        have h1len : (runnerTick steps next cnt s).bufindex < steps.length := by
          rw [hbi]; exact hbl
        have h1dur : (runnerTick steps next cnt s).duration_count ≤
            (stepAt steps (runnerTick steps next cnt s).bufindex).duration := by
          rw [hdc]; exact Nat.zero_le _
        have h1R : ticksFor (steps.drop (runnerTick steps next cnt s).bufindex) -
            (runnerTick steps next cnt s).duration_count = R := by
          rw [hbi, hdc]; omega
        have hRpos : 1 ≤ R := by
          have hdrop2 := ticksFor_drop_succ steps (s.bufindex + 1) hbl
          omega
        obtain ⟨hcompl, hbz, hdz⟩ := ih (runnerTick steps next cnt s) h1len h1dur h1R
        refine ⟨?_, ?_, ?_⟩
        · intro n hn
          cases n with
          | zero =>
            rw [Function.iterate_zero_apply, hdone]
            constructor
            · intro hh; exact absurd hh (by simp)
            · intro hh; exact absurd hh (by omega)
          | succ m =>
            rw [Function.iterate_succ_apply, hcompl m (by omega)]
            omega
        · rw [Function.iterate_succ_apply]; exact hbz
        · rw [Function.iterate_succ_apply]; exact hdz
      · have hble : steps.length ≤ s.bufindex + 1 := by omega
        obtain ⟨hdone, hbi, hdc⟩ := st3 hge hble
        have hnil : steps.drop (s.bufindex + 1) = [] := List.drop_eq_nil_of_le hble
        have hR0 : R = 0 := by
          rw [hnil, show ticksFor ([] : List Cmd) = 0 from rfl] at hdrop
          omega
        subst hR0
        refine ⟨?_, ?_, ?_⟩
        · intro n hn
          interval_cases n
          rw [Function.iterate_zero_apply, hdone]
          simp
        · rw [Function.iterate_one]; exact hbi
        · rw [Function.iterate_one]; exact hdc

/-- C1 counterexample: for the one-step sequence `[(hang, 1)]`
(`sum(duration+1) = 2`) and the valid cursor `(0, 1)`, the two calls of
`do_steps` return `completed = true` on the FIRST call, `false` on the
final call, and leave the cursor at `(0, 1)`, not `(0, 0)`: the claim
fails for valid cursors other than `(0, 0)`. -/
theorem claim_C1_counterexample :
    ticksFor [(⟨hang, 1⟩ : Cmd)] = 2 ∧
    ({ circle1Entry with duration_count := 1 }).bufindex = 0 ∧
    ({ circle1Entry with duration_count := 1 }).duration_count ≤
      (stepAt [(⟨hang, 1⟩ : Cmd)] 0).duration ∧
    runnerDone [⟨hang, 1⟩] DONE false { circle1Entry with duration_count := 1 } = true ∧
    runnerDone [⟨hang, 1⟩] DONE false
        ((runnerTick [⟨hang, 1⟩] DONE false)^[1]
          { circle1Entry with duration_count := 1 }) = false ∧
    ((runnerTick [⟨hang, 1⟩] DONE false)^[2]
        { circle1Entry with duration_count := 1 }).duration_count = 1 := by
  decide

/-- C1 (amended): for every nonempty sequence and every start at cursor
`(0, 0)`, calling the Sequence Runner exactly `sum(duration+1)` times
returns `completed = true` exactly once, on the final call only, and
leaves the cursor at `(0, 0)`; and a step of duration 0 is advanced
past (or completes the sequence) on the very first tick that executes
it.  (For valid cursors not equal to `(0, 0)` the completion arrives
earlier, see the counterexample.) -/
theorem claim_C1_sequence_runner (steps : List Cmd) (next : State_t) (cnt : Bool)
    (s : EngineState) (hne : steps ≠ []) (hb : s.bufindex = 0)
    (hd : s.duration_count = 0) :
    (∀ n, n < ticksFor steps →
      (runnerDone steps next cnt ((runnerTick steps next cnt)^[n] s) = true ↔
        n = ticksFor steps - 1)) ∧
    ((runnerTick steps next cnt)^[ticksFor steps] s).bufindex = 0 ∧
    ((runnerTick steps next cnt)^[ticksFor steps] s).duration_count = 0 ∧
    (∀ t : EngineState, t.bufindex < steps.length → t.duration_count = 0 →
      (stepAt steps t.bufindex).duration = 0 →
      (runnerDone steps next cnt t = true ∧
          (runnerTick steps next cnt t).bufindex = 0) ∨
        (runnerDone steps next cnt t = false ∧
          (runnerTick steps next cnt t).bufindex = t.bufindex + 1)) := by
  have hlen : 0 < steps.length := List.length_pos.mpr hne
  have hmain := runner_run steps next cnt (ticksFor steps) s (by omega)
    (by rw [hd]; exact Nat.zero_le _)
    (by rw [hb, hd, List.drop_zero]; omega)
  obtain ⟨hcompl, hbz, hdz⟩ := hmain
  refine ⟨hcompl, hbz, hdz, ?_⟩
  intro t htlen htdc htdur
  obtain ⟨st1, st2, st3⟩ := runnerTick_step steps next cnt t htlen
  by_cases hbl : t.bufindex + 1 < steps.length
  · obtain ⟨h1, h2, h3⟩ := st2 (by omega) hbl
    exact Or.inr ⟨h1, h2⟩
  · obtain ⟨h1, h2, h3⟩ := st3 (by omega) (by omega)
    exact Or.inl ⟨h1, h2⟩

/-- Witness for the amended C1: the two-step sequence
`[(press_a, 0), (hang, 2)]` (4 ticks) from cursor `(0, 0)`. -/
theorem claim_C1_witness :
    (∀ n, n < ticksFor [(⟨press_a, 0⟩ : Cmd), ⟨hang, 2⟩] →
      (runnerDone [(⟨press_a, 0⟩ : Cmd), ⟨hang, 2⟩] DONE true
          ((runnerTick [(⟨press_a, 0⟩ : Cmd), ⟨hang, 2⟩] DONE true)^[n]
            circle1Entry) = true ↔
        n = ticksFor [(⟨press_a, 0⟩ : Cmd), ⟨hang, 2⟩] - 1)) ∧
    ((runnerTick [(⟨press_a, 0⟩ : Cmd), ⟨hang, 2⟩] DONE
        true)^[ticksFor [(⟨press_a, 0⟩ : Cmd), ⟨hang, 2⟩]]
        circle1Entry).bufindex = 0 ∧
    ((runnerTick [(⟨press_a, 0⟩ : Cmd), ⟨hang, 2⟩] DONE
        true)^[ticksFor [(⟨press_a, 0⟩ : Cmd), ⟨hang, 2⟩]]
        circle1Entry).duration_count = 0 ∧
    (∀ t : EngineState,
      t.bufindex < ([(⟨press_a, 0⟩ : Cmd), ⟨hang, 2⟩] : List Cmd).length →
      t.duration_count = 0 →
      (stepAt ([(⟨press_a, 0⟩ : Cmd), ⟨hang, 2⟩] : List Cmd) t.bufindex).duration = 0 →
      (runnerDone [(⟨press_a, 0⟩ : Cmd), ⟨hang, 2⟩] DONE true t = true ∧
          (runnerTick [(⟨press_a, 0⟩ : Cmd), ⟨hang, 2⟩] DONE true t).bufindex = 0) ∨
        (runnerDone [(⟨press_a, 0⟩ : Cmd), ⟨hang, 2⟩] DONE true t = false ∧
          (runnerTick [(⟨press_a, 0⟩ : Cmd), ⟨hang, 2⟩] DONE true t).bufindex =
            t.bufindex + 1)) :=
  claim_C1_sequence_runner [⟨press_a, 0⟩, ⟨hang, 2⟩] DONE true circle1Entry
    (by decide) rfl rfl

theorem do_steps_egg_set_mem (steps : List Cmd) (rd : Report) (nx : State_t)
    (cnt : Bool) (s : EngineState) (h1 : 1 ≤ s.egg_set) (h6 : s.egg_set ≤ 6) :
    1 ≤ (do_steps steps rd nx cnt s).2.1.egg_set ∧
      (do_steps steps rd nx cnt s).2.1.egg_set ≤ 6 := by
  simp only [do_steps, on_complete_counts]
  split_ifs <;> simp <;> omega

set_option maxHeartbeats 2000000 in
theorem runCase_egg_set_bounds (cfg : Config) (s : EngineState)
    (h1 : 1 ≤ s.egg_set) (h6 : s.egg_set ≤ 6) :
    1 ≤ (runCase cfg s).2.egg_set ∧ (runCase cfg s).2.egg_set ≤ 6 := by
  have hds : ∀ (steps : List Cmd) (nx : State_t) (cnt : Bool) (t : EngineState),
      t.egg_set = s.egg_set →
      1 ≤ (do_steps steps neutralReport nx cnt t).2.1.egg_set ∧
        (do_steps steps neutralReport nx cnt t).2.1.egg_set ≤ 6 := by
    intro steps nx cnt t ht
    exact do_steps_egg_set_mem steps neutralReport nx cnt t (ht ▸ h1) (ht ▸ h6)
  cases hs : s.state <;> simp only [runCase, hs] <;> try split_ifs
  all_goals
    first
      | exact hds _ _ _ _ rfl
      | exact ⟨h1, h6⟩
      | (constructor <;> simp)

/-- C10: every call to `GetNextReport` preserves `egg_set ∈ 1..6` (the
only mutations are the increment-and-wrap of `do_steps` sending 6 to 1
and staying within 1..6, and the explicit resets to 1 in the
`GO_TO_CIRCLE1`/`GO_TO_CIRCLE2` branches), and the initial engine state
starts with `egg_set = 1`; so the six-way select-column dispatches are
always reached with `egg_set` in range. -/
theorem claim_C10_egg_set_invariant (cfg : Config) (s : EngineState)
    (h1 : 1 ≤ s.egg_set) (h6 : s.egg_set ≤ 6) :
    (initialState cfg).egg_set = 1 ∧
    1 ≤ (GetNextReport cfg s).2.egg_set ∧ (GetNextReport cfg s).2.egg_set ≤ 6 := by
  refine ⟨rfl, ?_⟩
  by_cases he : 0 < s.echoes
  · simpa [GetNextReport, he] using ⟨h1, h6⟩
  · by_cases hd : s.state = DONE
    · simpa [GetNextReport, he, hd, runCase] using ⟨h1, h6⟩
    · simpa [GetNextReport, he, hd] using runCase_egg_set_bounds cfg s h1 h6

/-- Witness for C10 at the concrete initial state of `trivCfg`. -/
theorem claim_C10_witness :
    (initialState trivCfg).egg_set = 1 ∧
    1 ≤ (GetNextReport trivCfg (initialState trivCfg)).2.egg_set ∧
      (GetNextReport trivCfg (initialState trivCfg)).2.egg_set ≤ 6 :=
  claim_C10_egg_set_invariant trivCfg (initialState trivCfg) (by decide) (by decide)

end SwSh
